import Mathlib

/-!
Shallow embedding of the cobolt_python session-orchestration core:
the persistent chat store (`chat_history.py`), the streaming worker and the
UI commit handler (`ollama_worker.py`, `cobolt_ui.py`), the tool-server
client (`mcp_client.py`) and the configuration loader (`mcp_tools.py`).
Each definition mirrors the corresponding Python function; machine-level
behaviour of sqlite3 is modelled as the Python `sqlite3` module actually
executes it (in particular, no connection ever issues
`PRAGMA foreign_keys = ON`, so declared foreign-key constraints and
`ON DELETE CASCADE` clauses are never enforced at runtime).
-/

namespace Cobolt

/-! ## ChatStore (`chat_history.py`) -/

/-- One row of the `chats` table: `id TEXT PRIMARY KEY, title TEXT NOT NULL,
created_at DATETIME DEFAULT CURRENT_TIMESTAMP`. Timestamps are modelled as a
monotonically increasing logical clock. -/
structure Chat where
  id : String
  title : String
  created_at : Nat
deriving DecidableEq

/-- One row of the `chat_messages` table: autoincrement integer id, chat id,
role, content, insertion timestamp. -/
structure Message where
  id : Nat
  chat_id : String
  role : String
  content : String
  timestamp : Nat
deriving DecidableEq

/-- The database state: the two tables, the autoincrement counter for
`chat_messages.id` (sqlite AUTOINCREMENT starts at 1 and is never reset by
DELETE), and the logical clock assigning `CURRENT_TIMESTAMP` values. -/
structure Store where
  chats : List Chat
  messages : List Message
  next_msg_id : Nat
  clock : Nat
deriving DecidableEq

/-- A fresh database as produced by `ChatHistory._init_db`. -/
def store0 : Store := ⟨[], [], 1, 0⟩

/-- The error taxonomy realised by the distinct `raise` sites of
`chat_history.py` (`ValueError("Invalid chat_id")`,
`ValueError("Invalid role...")`, re-raised `sqlite3.Error`, and the
`IntegrityError` from inserting a duplicate primary key). -/
inductive ChatError
  | duplicateId
  | invalidChatId
  | invalidRole
  | storage
deriving DecidableEq

/-- Whitespace as stripped by Python `str.strip()` with no argument:
space, tab, newline, carriage return, vertical tab, form feed. -/
def pyIsSpace (c : Char) : Bool :=
  c == ' ' || c == '\t' || c == '\n' || c == '\r' || c.toNat == 11 || c.toNat == 12

/-- Python `chat_id.strip()`. -/
def pyStrip (s : String) : List Char :=
  ((s.data.dropWhile pyIsSpace).reverse.dropWhile pyIsSpace).reverse

/-- Truthiness test `not chat_id.strip()` guarding `add_message` and
`get_messages`: the id is blank when stripping leaves the empty string. -/
def isBlankChatId (s : String) : Bool :=
  (pyStrip s).isEmpty

/-- The closed role set of `add_message`: `role in ['user', 'assistant', 'tool']`. -/
def validRole (r : String) : Bool :=
  r == "user" || r == "assistant" || r == "tool"

/-- `ChatHistory.create_chat`: `INSERT INTO chats (id, title)`; a duplicate
primary key raises `sqlite3.IntegrityError`, which propagates (no `try`). -/
def create_chat (st : Store) (chat_id title : String) : Except ChatError (Store × String) :=
  if st.chats.any (fun c => c.id == chat_id) then
    .error .duplicateId
  else
    .ok ({ st with chats := st.chats ++ [⟨chat_id, title, st.clock⟩],
                   clock := st.clock + 1 }, chat_id)

/-- `ChatHistory.add_message`. Validation order follows the source: blank
chat id first, then the role set (content is a `String` in the model, so the
`isinstance` check always passes). A storage failure inside the `try` block
is re-raised (`raise`). No foreign-key check occurs: the connection never
enables the `foreign_keys` pragma, so the declared
`FOREIGN KEY (chat_id) REFERENCES chats(id)` is not enforced and the insert
succeeds for any non-blank chat id. -/
def add_message (fail : Bool) (st : Store) (chat_id role content : String) :
    Except ChatError (Store × Nat) :=
  if isBlankChatId chat_id then .error .invalidChatId
  else if !validRole role then .error .invalidRole
  else if fail then .error .storage
  else
    .ok ({ st with
            messages := st.messages ++ [⟨st.next_msg_id, chat_id, role, content, st.clock⟩],
            next_msg_id := st.next_msg_id + 1,
            clock := st.clock + 1 }, st.next_msg_id)

/-- The `chat_messages` table after an `add_message` call: on an exception the
transaction is rolled back (and the role/id validations fire before any SQL
runs), so the table is the one from before the call. -/
def messagesAfterAdd (st : Store) (r : Except ChatError (Store × Nat)) : List Message :=
  match r with
  | .ok (st', _) => st'.messages
  | .error _ => st.messages

/-- `ChatHistory.delete_chat`: `DELETE FROM chats WHERE id = ?`, returning
`rowcount > 0`. The `ON DELETE CASCADE` clause of `chat_messages` never fires
because no connection enables the `foreign_keys` pragma, so the messages of
the deleted chat stay in the table. -/
def delete_chat (st : Store) (chat_id : String) : Store × Bool :=
  ({ st with chats := st.chats.filter (fun c => c.id != chat_id) },
   st.chats.any (fun c => c.id == chat_id))

/-- Insert a message into a list kept in ascending `timestamp` order. -/
def insertByTimestamp (m : Message) : List Message → List Message
  | [] => [m]
  | x :: xs => if m.timestamp < x.timestamp then m :: x :: xs else x :: insertByTimestamp m xs

/-- `ORDER BY timestamp ASC` as an insertion sort (stable for equal keys). -/
def sortByTimestamp : List Message → List Message
  | [] => []
  | x :: xs => insertByTimestamp x (sortByTimestamp xs)

/-- `ChatHistory.get_messages`: blank chat id raises
`ValueError("Invalid chat_id")`; otherwise `SELECT ... WHERE chat_id = ?
ORDER BY timestamp ASC LIMIT ?`. A `sqlite3.Error` inside the `try` block is
caught, logged, and converted into the normal return value `[]`. -/
def get_messages (fail : Bool) (st : Store) (chat_id : String) (limit : Nat) :
    Except ChatError (List Message) :=
  if isBlankChatId chat_id then .error .invalidChatId
  else if fail then .ok []
  else .ok ((sortByTimestamp (st.messages.filter (fun m => m.chat_id == chat_id))).take limit)

/-- `ChatHistory.clear_all`: deletes every message then every chat; a
`sqlite3.Error` is logged and re-raised. -/
def clear_all (fail : Bool) (st : Store) : Except ChatError Store :=
  if fail then .error .storage
  else .ok { st with chats := [], messages := [] }

/-- An all-whitespace string strips to the empty string. -/
theorem isBlank_of_all_space (s : String) (h : s.data.all pyIsSpace = true) :
    isBlankChatId s = true := by
  have h' : s.data.dropWhile pyIsSpace = [] := by
    rw [List.dropWhile_eq_nil_iff]
    intro x hx
    exact List.all_eq_true.mp h x hx
  simp [isBlankChatId, pyStrip, h']

/-! ## StreamingSession (`ollama_worker.py`) and the UI commit handler
(`cobolt_ui.py`) -/

/-- The three Qt signals of `OllamaWorker`: `response_received` (cumulative
buffer), `response_complete` (final buffer), `error_occurred`. -/
inductive WorkerEvent
  | updated (text : String)
  | complete (text : String)
  | errored (text : String)
deriving DecidableEq

/-- State of the `_is_running` liveness flag after `processed` chunks have
been consumed: `cancelAt = some k` models `stop()` clearing the flag once
`k` chunks have been processed; `none` means the flag is never cleared. -/
def isRunningAfter (cancelAt : Option Nat) (processed : Nat) : Bool :=
  match cancelAt with
  | none => true
  | some k => processed < k

/-- The loop body of `OllamaWorker.run`: at the top of each iteration the
flag is checked (`if not self._is_running: break`); otherwise the chunk is
appended to `_buffer` and the cumulative buffer is emitted. After the loop,
`response_complete` fires only if the flag is still set. -/
def workerRunGo (cancelAt : Option Nat) : List String → Nat → String → List WorkerEvent
  | [], n, buf =>
      if isRunningAfter cancelAt n then [.complete buf] else []
  | c :: rest, n, buf =>
      if isRunningAfter cancelAt n then
        .updated (buf ++ c) :: workerRunGo cancelAt rest (n + 1) (buf ++ c)
      else []

/-- `OllamaWorker.run` on a given fragment sequence, with `_buffer`
initialised to the empty string, returning the emitted signal sequence. -/
def workerRun (chunks : List String) (cancelAt : Option Nat) : List WorkerEvent :=
  workerRunGo cancelAt chunks 0 ""

/-- The slice of `ChatWindow` state that `handle_complete_response` touches:
`current_chat_id`, the `_message_saved` guard attribute (absent = `false`),
the in-memory `messages` list as (role, content) pairs, and the sequence of
`add_message` calls issued to the store as (chat id, role, content). -/
structure UIState where
  current_chat_id : Option String
  message_saved : Bool
  messages : List (String × String)
  writes : List (String × String × String)
deriving DecidableEq

/-- Python truthiness of `self.current_chat_id` (`None` and `""` are falsy). -/
def truthyId : Option String → Bool
  | none => false
  | some s => s != ""

/-- `ChatWindow.handle_complete_response`: guarded by
`if self.current_chat_id and not hasattr(self, '_message_saved')`; inside the
guard it overwrites the trailing assistant message (if any) with the final
response, calls `add_message(current_chat_id, "assistant", response)`, and
sets `_message_saved`. -/
def handle_complete_response (st : UIState) (response : String) : UIState :=
  if truthyId st.current_chat_id && !st.message_saved then
    let msgs :=
      match st.messages.getLast? with
      | some (r, _) =>
          if r == "assistant" then st.messages.dropLast ++ [("assistant", response)]
          else st.messages
      | none => st.messages
    { st with
        messages := msgs,
        writes := st.writes ++ [(st.current_chat_id.getD "", "assistant", response)],
        message_saved := true }
  else st

/-- A UI state mid-turn: a current chat, the guard attribute absent, a user
turn and the streamed assistant text in memory, and no store write yet for
this turn. -/
def ui0 : UIState :=
  ⟨some "chat1", false, [("user", "hi"), ("assistant", "Hello")], []⟩

/-! ## ToolClient (`mcp_client.py`) and the registry (`mcp_tools.py`) -/

/-- `MCPServer` dataclass of `mcp_tools.py`. -/
structure MCPServer where
  name : String
  command : String
  args : List String
  env : List (String × String)
deriving DecidableEq

/-- One entry of the `tools` array of a discovery response; `t.get("name", "")`
and `t.get("description", "")` default missing fields to the empty string. -/
structure RawTool where
  name : Option String
  description : Option String
deriving DecidableEq

/-- What a launched server process answers to the single `listTools`
request on its stdout: no line within the timeout, an unparseable line
(`json.loads` raises, caught and logged), or a parsed object whose `tools`
key defaults to the empty list. -/
inductive DiscoveryResponse
  | timeout
  | malformed
  | toolsDoc (tools : List RawTool)
deriving DecidableEq

/-- A child process as `list_tools` observes it: its discovery behaviour. -/
structure Proc where
  response : DiscoveryResponse
deriving DecidableEq

/-- `McpTool` dataclass: server name, tool name, description. -/
structure McpTool where
  server : String
  name : String
  description : String
deriving DecidableEq

/-- State of an `MCPClient`: the tracked process list `self.clients` and the
tool cache `self.tool_cache`. -/
structure MCPClientState where
  clients : List Proc
  tool_cache : List McpTool
deriving DecidableEq

/-- The dict returned by `connect_to_servers`: `success`, the per-server
`errors` list of (serverName, error) pairs, and `errorMessage` (set only in
the zero-success case). -/
structure ConnectResult where
  success : Bool
  errors : List (String × String)
  errorMessage : Option String
deriving DecidableEq

/-- Whether `subprocess.Popen` succeeded for this server. -/
def launchOk (r : Except String Proc) : Bool :=
  match r with
  | .ok _ => true
  | .error _ => false

/-- `MCPClient.list_tools`: a timeout or a malformed response yields `[]`;
a parsed document yields one `McpTool` per entry, each labelled with the
name of the server argument passed in. -/
def list_tools (proc : Proc) (server : MCPServer) : List McpTool :=
  match proc.response with
  | .timeout => []
  | .malformed => []
  | .toolsDoc ts =>
      ts.map (fun t => ⟨server.name, t.name.getD "", t.description.getD ""⟩)

/-- `MCPClient.list_all_connected_tools`: iterates
`zip(self.clients, mcp_servers)` — the connected-process list is paired
positionally with the full configured-server list. -/
def list_all_connected_tools (clients : List Proc) (servers : List MCPServer) :
    List McpTool :=
  ((clients.zip servers).map (fun p => list_tools p.1 p.2)).flatten

/-- `MCPClient.connect_to_servers`. `self.clients` is cleared up front; the
loop appends a process per successful launch and an (serverName, error) pair
per failed launch, in configuration order; the tool cache is rebuilt only
when at least one launch succeeded; `errorMessage` is set only when none
did. The launch environment (process spawning) is the `launch` argument. -/
def connect_to_servers (launch : MCPServer → Except String Proc)
    (servers : List MCPServer) (st : MCPClientState) : MCPClientState × ConnectResult :=
  let clients := servers.filterMap (fun s => (launch s).toOption)
  let errors := servers.filterMap (fun s =>
    match launch s with
    | .ok _ => none
    | .error e => some (s.name, e))
  let success := servers.any (fun s => launchOk (launch s))
  ({ clients := clients,
     tool_cache := if success then list_all_connected_tools clients servers
                   else st.tool_cache },
   { success := success,
     errors := errors,
     errorMessage := if success then none else some "Failed to connect to any MCP server" })

/-- The body of one server entry in `mcp-servers.json`: a JSON object with
optional `command`, `args`, `env` keys (`.get` with defaults), or a value
that is not an object, on which `server.get(...)` raises mid-loop. -/
inductive ConfigEntryBody
  | obj (command : Option String) (args : Option (List String))
        (env : Option (List (String × String)))
  | bad
deriving DecidableEq

/-- The configuration file as `load_config` observes it: absent (created
with an empty server map), unreadable (`json.load` raises), or a parsed
document given by its `mcpServers` entries in insertion order. -/
inductive ConfigFile
  | missing
  | unreadable
  | doc (entries : List (String × ConfigEntryBody))
deriving DecidableEq

/-- Build one `MCPServer` from a well-formed entry; the `bad` case never
survives to the result (the loop raises there) and is given a placeholder. -/
def parseEntry (name : String) : ConfigEntryBody → MCPServer
  | .obj c a e => ⟨name, c.getD "", a.getD [], e.getD []⟩
  | .bad => ⟨name, "", [], []⟩

/-- The loop of `load_config` over the entries, carrying the list built so
far (the global `mcp_servers`, already cleared): a `bad` entry raises, the
exception is caught, and the function returns `False` with the list left as
accumulated. -/
def load_config_go : List (String × ConfigEntryBody) → List MCPServer →
    Bool × List MCPServer
  | [], acc => (true, acc)
  | (name, .obj c a e) :: rest, acc =>
      load_config_go rest (acc ++ [parseEntry name (.obj c a e)])
  | (_, .bad) :: _, acc => (false, acc)

/-- `load_config` of `mcp_tools.py`: `mcp_servers.clear()` runs first, then
the file is read; a missing file is created with an empty map, an unreadable
file raises after the clear (returning `False` with the emptied list), and a
readable document is folded entry by entry. The old in-memory list is the
second argument; the code discards it unconditionally. -/
def load_config : ConfigFile → List MCPServer → Bool × List MCPServer
  | .missing, _ => (true, [])
  | .unreadable, _ => (false, [])
  | .doc entries, _ => load_config_go entries []

/-- The complete server list described by a configuration document. -/
def configListed : ConfigFile → List MCPServer
  | .missing => []
  | .unreadable => []
  | .doc entries => entries.map (fun e => parseEntry e.1 e.2)

/-! ## Claims about the ChatStore -/

/-- The store after `create_chat("c1")`, `add_message("c1","user","hi")`,
`delete_chat("c1")`, run on a fresh database with no storage failures. -/
def c1_store : Store :=
  match create_chat store0 "c1" "t" with
  | .ok (st1, _) =>
      (match add_message false st1 "c1" "user" "hi" with
       | .ok (st2, _) => (delete_chat st2 "c1").1
       | .error _ => store0)
  | .error _ => store0

/-- C1: as executed, `delete_chat` does not cascade. The Python code never
issues `PRAGMA foreign_keys = ON`, so sqlite leaves the declared
`ON DELETE CASCADE` inert: after creating chat `"c1"`, adding one message to
it and deleting the chat, the chat row is gone but `get_messages("c1")`
still returns that message, contradicting both the spec and the code's own
schema and docstring ("Delete a chat and all its messages"). -/
theorem c1_cascade_not_enforced :
    c1_store.chats = [] ∧
    get_messages false c1_store "c1" 100 = .ok [⟨1, "c1", "user", "hi", 1⟩] ∧
    ([(⟨1, "c1", "user", "hi", 1⟩ : Message)] : List Message) ≠ [] := by
  refine ⟨rfl, rfl, ?_⟩
  decide

/-- C2: referential integrity is not enforced at insertion time. On a fresh
store with no chats at all, `add_message("ghost", "user", "x")` succeeds and
inserts a row whose chat id matches no existing chat, because the sqlite
connection never enables foreign-key enforcement for the declared
`FOREIGN KEY (chat_id) REFERENCES chats(id)`. -/
theorem c2_orphan_insert_succeeds :
    add_message false store0 "ghost" "user" "x"
      = .ok (⟨[], [⟨1, "ghost", "user", "x", 0⟩], 2, 1⟩, 1) ∧
    (⟨[], [⟨1, "ghost", "user", "x", 0⟩], 2, 1⟩ : Store).chats.all
      (fun c => c.id != "ghost") = true := by
  exact ⟨rfl, rfl⟩

/-- C8 counterexample: with a blank chat id and a role outside the closed
set, `add_message` fails with the invalid-chat-id error, not the
invalid-role error, because the chat-id validation runs first. -/
theorem c8_blank_id_beats_invalid_role :
    add_message false store0 "" "banana" "x" = .error .invalidChatId ∧
    ChatError.invalidChatId ≠ ChatError.invalidRole := by
  refine ⟨rfl, ?_⟩
  decide

/-- C8 amended: for every store, failure flag and content, and every
non-blank chat id, a role outside {user, assistant, tool} makes
`add_message` fail with the invalid-role error and leaves the message table
unchanged (the validation raises before any SQL runs). -/
theorem c8_invalid_role_rejected (fail : Bool) (st : Store)
    (chat_id role content : String)
    (hc : isBlankChatId chat_id = false) (hr : validRole role = false) :
    add_message fail st chat_id role content = .error .invalidRole ∧
    messagesAfterAdd st (add_message fail st chat_id role content) = st.messages := by
  have h : add_message fail st chat_id role content = .error .invalidRole := by
    simp [add_message, hc, hr]
  exact ⟨h, by rw [h]; rfl⟩

/-- C8 witness: the amended statement at a concrete input. -/
theorem c8_invalid_role_rejected_witness :
    add_message false store0 "c1" "banana" "x" = .error .invalidRole ∧
    messagesAfterAdd store0 (add_message false store0 "c1" "banana" "x")
      = store0.messages :=
  c8_invalid_role_rejected false store0 "c1" "banana" "x" (by decide) (by decide)

/-- C10: `get_messages` applies the same blank-id validation as
`add_message`: for every chat id that is empty or all whitespace, it fails
with the invalid-chat-id error (`ValueError("Invalid chat_id")`) for every
store, limit and failure-flag value, instead of returning a sequence. -/
theorem c10_get_messages_blank_id (fail : Bool) (st : Store) (chat_id : String)
    (limit : Nat) (h : chat_id.data.all pyIsSpace = true) :
    get_messages fail st chat_id limit = .error .invalidChatId := by
  simp [get_messages, isBlank_of_all_space chat_id h]

/-- C10 witness: a whitespace-only chat id at a concrete input. -/
theorem c10_get_messages_blank_id_witness :
    get_messages false store0 " " 100 = .error .invalidChatId :=
  c10_get_messages_blank_id false store0 " " 100 (by decide)

/-- A store holding one chat `"c"` with one message, for exercising the
storage-failure path of `get_messages`. -/
def c7_store : Store :=
  ⟨[⟨"c", "t", 0⟩], [⟨1, "c", "user", "hi", 1⟩], 2, 2⟩

/-- C7 counterexample: a storage failure during `get_messages` does not
propagate. The `except sqlite3.Error` handler logs and returns `[]`: on a
store that actually holds a message for chat `"c"`, the failing call returns
the normal value `[]` instead of a storage error. -/
theorem c7_get_messages_swallows_failure :
    get_messages true c7_store "c" 100 = .ok [] ∧
    get_messages true c7_store "c" 100 ≠ .error .storage ∧
    get_messages false c7_store "c" 100 = .ok [⟨1, "c", "user", "hi", 1⟩] := by
  refine ⟨rfl, ?_, rfl⟩
  intro h
  exact Except.noConfusion h

/-- C7 amended: storage failures propagate from `add_message` (which
re-raises) and from `clear_all` (which re-raises), but `get_messages`
converts a storage failure into the normal return `[]` for every non-blank
chat id. -/
theorem c7_storage_failure_paths (st : Store) (chat_id role content : String)
    (limit : Nat) (hc : isBlankChatId chat_id = false) (hr : validRole role = true) :
    add_message true st chat_id role content = .error .storage ∧
    clear_all true st = .error .storage ∧
    get_messages true st chat_id limit = .ok [] := by
  refine ⟨?_, rfl, ?_⟩
  · simp [add_message, hc, hr]
  · simp [get_messages, hc]

/-- C7 witness: the amended statement at a concrete input. -/
theorem c7_storage_failure_paths_witness :
    add_message true c7_store "c" "user" "x" = .error .storage ∧
    clear_all true c7_store = .error .storage ∧
    get_messages true c7_store "c" 100 = .ok [] :=
  c7_storage_failure_paths c7_store "c" "user" "x" 100 (by decide) (by decide)

/-! ## Claims about the streaming session and the MCP client -/

/-- Test for the "complete" notification among the worker's emitted events. -/
def isCompleteEvent : WorkerEvent → Bool
  | .complete _ => true
  | _ => false

/-- C4: fed the fragments `["Hel", "lo"]` with the liveness flag never
cleared, the worker emits the two cumulative updates and then exactly one
"complete" notification carrying the concatenated buffer `"Hello"`; and the
caller's commit handler, invoked twice on that completion, writes exactly
one assistant message with content `"Hello"` thanks to the
`_message_saved` guard. -/
theorem c4_single_complete_single_commit :
    workerRun ["Hel", "lo"] none
      = [.updated "Hel", .updated "Hello", .complete "Hello"] ∧
    (workerRun ["Hel", "lo"] none).countP isCompleteEvent = 1 ∧
    (handle_complete_response (handle_complete_response ui0 "Hello") "Hello").writes
      = [("chat1", "assistant", "Hello")] := by
  exact ⟨rfl, rfl, rfl⟩

/-- The configured server named `"alpha"`, whose launch fails in the C3
scenario. -/
def s_alpha : MCPServer := ⟨"alpha", "cmd_a", [], []⟩

/-- The configured server named `"beta"`, whose launch succeeds in the C3
scenario. -/
def s_beta : MCPServer := ⟨"beta", "cmd_b", [], []⟩

/-- The process launched for `"beta"`, advertising one tool. -/
def proc_beta : Proc := ⟨.toolsDoc [⟨some "echo", some "echoes input"⟩]⟩

/-- The launch environment of the C3 scenario: spawning `"alpha"` raises,
spawning `"beta"` yields `proc_beta`. -/
def launch_c3 : MCPServer → Except String Proc := fun s =>
  if s.name == "alpha" then .error "spawn failure" else .ok proc_beta

/-- C3: with servers `[alpha, beta]` where alpha's launch fails and beta's
succeeds, the call returns success with exactly one error entry for alpha —
but the rebuilt cache's single descriptor, although its tool data was
discovered from beta's process, carries the name `"alpha"`: the rebuild
zips the successes-only client list against the full server list, pairing
beta's process with alpha's configuration entry. -/
theorem c3_survivor_tools_mislabelled :
    (connect_to_servers launch_c3 [s_alpha, s_beta] ⟨[], []⟩).2.success = true ∧
    (connect_to_servers launch_c3 [s_alpha, s_beta] ⟨[], []⟩).2.errors
      = [("alpha", "spawn failure")] ∧
    (connect_to_servers launch_c3 [s_alpha, s_beta] ⟨[], []⟩).1.clients = [proc_beta] ∧
    (connect_to_servers launch_c3 [s_alpha, s_beta] ⟨[], []⟩).1.tool_cache
      = [⟨"alpha", "echo", "echoes input"⟩] ∧
    ([(⟨"alpha", "echo", "echoes input"⟩ : McpTool)] : List McpTool)
      ≠ [⟨"beta", "echo", "echoes input"⟩] := by
  refine ⟨rfl, rfl, rfl, rfl, ?_⟩
  decide

/-- If every configured server fails to launch, no launch is Ok. -/
theorem any_launchOk_eq_false (launch : MCPServer → Except String Proc)
    (servers : List MCPServer)
    (h : servers.all (fun s => !launchOk (launch s)) = true) :
    servers.any (fun s => launchOk (launch s)) = false := by
  rw [List.any_eq_false]
  intro s hs
  have := List.all_eq_true.mp h s hs
  simpa using this

/-- C5: when zero servers connect, the result reports failure with the
aggregate error message present, and the tool cache is left exactly as it
was before the call (the rebuild step is guarded by the success flag). -/
theorem c5_zero_success_keeps_cache (launch : MCPServer → Except String Proc)
    (servers : List MCPServer) (st : MCPClientState)
    (h : servers.all (fun s => !launchOk (launch s)) = true) :
    (connect_to_servers launch servers st).2.success = false ∧
    (connect_to_servers launch servers st).2.errorMessage
      = some "Failed to connect to any MCP server" ∧
    (connect_to_servers launch servers st).1.tool_cache = st.tool_cache := by
  have hany := any_launchOk_eq_false launch servers h
  refine ⟨?_, ?_, ?_⟩ <;> simp [connect_to_servers, hany]

/-- C5 witness: one configured server whose launch fails, against a client
that cached a descriptor in a previous cycle. -/
theorem c5_zero_success_keeps_cache_witness :
    (connect_to_servers (fun _ => .error "boom") [s_alpha]
        ⟨[], [⟨"beta", "echo", "echoes input"⟩]⟩).2.success = false ∧
    (connect_to_servers (fun _ => .error "boom") [s_alpha]
        ⟨[], [⟨"beta", "echo", "echoes input"⟩]⟩).2.errorMessage
      = some "Failed to connect to any MCP server" ∧
    (connect_to_servers (fun _ => .error "boom") [s_alpha]
        ⟨[], [⟨"beta", "echo", "echoes input"⟩]⟩).1.tool_cache
      = (⟨[], [⟨"beta", "echo", "echoes input"⟩]⟩ : MCPClientState).tool_cache :=
  c5_zero_success_keeps_cache (fun _ => .error "boom") [s_alpha]
    ⟨[], [⟨"beta", "echo", "echoes input"⟩]⟩ (by decide)

/-- C9: the tracked process list is rebuilt from scratch on every call —
its value after the call does not depend on the state before the call — and
after a cycle in which zero servers connect the client tracks no processes
while the tool cache still holds the previous cycle's descriptors. -/
theorem c9_clients_cleared_each_cycle (launch : MCPServer → Except String Proc)
    (servers : List MCPServer) (st st2 : MCPClientState) :
    (connect_to_servers launch servers st).1.clients
      = (connect_to_servers launch servers st2).1.clients ∧
    (servers.all (fun s => !launchOk (launch s)) = true →
      (connect_to_servers launch servers st).1.clients = [] ∧
      (connect_to_servers launch servers st).1.tool_cache = st.tool_cache) := by
  refine ⟨rfl, fun h => ⟨?_, (c5_zero_success_keeps_cache launch servers st h).2.2⟩⟩
  simp only [connect_to_servers]
  rw [List.filterMap_eq_nil_iff]
  intro s hs
  have := List.all_eq_true.mp h s hs
  cases hl : launch s with
  | ok p => rw [hl] at this; simp [launchOk] at this
  | error e => simp [hl, Except.toOption]

/-- C9 witness: the concrete zero-success cycle, with a distinct prior
client list to exhibit the independence conjunct. -/
theorem c9_clients_cleared_each_cycle_witness :
    (connect_to_servers (fun _ => .error "down") [s_beta]
        ⟨[proc_beta], [⟨"beta", "echo", "echoes input"⟩]⟩).1.clients
      = (connect_to_servers (fun _ => .error "down") [s_beta] ⟨[], []⟩).1.clients ∧
    ((connect_to_servers (fun _ => .error "down") [s_beta]
        ⟨[proc_beta], [⟨"beta", "echo", "echoes input"⟩]⟩).1.clients = [] ∧
     (connect_to_servers (fun _ => .error "down") [s_beta]
        ⟨[proc_beta], [⟨"beta", "echo", "echoes input"⟩]⟩).1.tool_cache
      = (⟨[proc_beta], [⟨"beta", "echo", "echoes input"⟩]⟩ : MCPClientState).tool_cache) :=
  ⟨(c9_clients_cleared_each_cycle (fun _ => .error "down") [s_beta]
      ⟨[proc_beta], [⟨"beta", "echo", "echoes input"⟩]⟩ ⟨[], []⟩).1,
   (c9_clients_cleared_each_cycle (fun _ => .error "down") [s_beta]
      ⟨[proc_beta], [⟨"beta", "echo", "echoes input"⟩]⟩ ⟨[], []⟩).2 (by decide)⟩

/-- The loop of `load_config`, when it finishes with `True`, has appended
exactly the parse of every entry to the accumulator. -/
theorem load_config_go_complete (entries : List (String × ConfigEntryBody)) :
    ∀ acc : List MCPServer, (load_config_go entries acc).1 = true →
      (load_config_go entries acc).2 = acc ++ entries.map (fun e => parseEntry e.1 e.2) := by
  induction entries with
  | nil => intro acc _; simp [load_config_go]
  | cons e rest ih =>
      intro acc h
      obtain ⟨name, body⟩ := e
      cases body with
      | obj c a v =>
          have h' := ih (acc ++ [parseEntry name (.obj c a v)])
          simp only [load_config_go] at h ⊢
          rw [h' h]
          simp
      | bad => simp [load_config_go] at h

/-- C6 counterexample: a reload that fails partway leaves a partial list.
With the old list holding server `"old"` and a document whose first entry is
well-formed and whose second is not an object, `load_config` returns
`False` with the in-memory list holding only the first new server — a
proper partial subset of the new configuration, and not the old list. -/
theorem c6_failed_reload_partial_list :
    load_config (.doc [("a", .obj (some "ca") none none), ("b", .bad)])
        [⟨"old", "co", [], []⟩]
      = (false, [⟨"a", "ca", [], []⟩]) ∧
    ([(⟨"a", "ca", [], []⟩ : MCPServer)] : List MCPServer) ≠ [⟨"old", "co", [], []⟩] ∧
    ([(⟨"a", "ca", [], []⟩ : MCPServer)] : List MCPServer)
      ≠ configListed (.doc [("a", .obj (some "ca") none none), ("b", .bad)]) := by
  refine ⟨rfl, ?_, ?_⟩ <;> decide

/-- C6 amended: the reload discards the old list unconditionally (the
result is the same whatever list was in memory before the call), and a
reload that reports success has replaced the list with the complete parsed
configuration; a reload that fails leaves the cleared list, possibly with a
prefix of the new entries already appended, not the old list. -/
theorem c6_reload_replaces_wholesale (file : ConfigFile) (old : List MCPServer) :
    load_config file old = load_config file [] ∧
    ((load_config file old).1 = true → (load_config file old).2 = configListed file) := by
  constructor
  · cases file <;> rfl
  · intro h
    cases file with
    | missing => rfl
    | unreadable => simp [load_config] at h
    | doc entries =>
        have := load_config_go_complete entries [] (by simpa [load_config] using h)
        simpa [load_config, configListed] using this

/-- C6 witness: a one-entry document loaded over a non-empty old list. -/
theorem c6_reload_replaces_wholesale_witness :
    load_config (.doc [("a", .obj (some "ca") none none)]) [⟨"old", "co", [], []⟩]
      = load_config (.doc [("a", .obj (some "ca") none none)]) [] ∧
    (load_config (.doc [("a", .obj (some "ca") none none)]) [⟨"old", "co", [], []⟩]).2
      = configListed (.doc [("a", .obj (some "ca") none none)]) :=
  ⟨(c6_reload_replaces_wholesale (.doc [("a", .obj (some "ca") none none)])
      [⟨"old", "co", [], []⟩]).1,
   (c6_reload_replaces_wholesale (.doc [("a", .obj (some "ca") none none)])
      [⟨"old", "co", [], []⟩]).2 (by decide)⟩

end Cobolt
